import Mathlib

/-!
Shallow embedding of the scoring core of the StockAnalysis repository
(`src/app.py`): the four scoring functions `calculate_analyst_rating_score`,
`calculate_analyst_upside_score`, `calculate_financial_analysis_score`,
`calculate_technical_analysis_score` and the aggregator
`calculate_overall_score_and_reasons`.

Modelling conventions:
- Python floats are modelled as rationals (`ℚ`); the integer scores as `ℕ`
  (every contribution in the source is a non-negative integer literal) and the
  rounded overall score as `ℤ`.
- A Python value that may be `None` (or non-numeric, which every scorer treats
  the same way as `None` via its `isinstance` checks) is `Option ℚ` /
  `Option String`.
- `fmt2` models Python's `f"{x:.2f}"` fixed-point formatting (round half to
  even, two decimals) and `rhe` models Python 3's banker's rounding
  `round(x, 0)`.
- The aggregator in the source evaluates `f"{(analyst_upside * 100):.2f}"`
  unconditionally (src/app.py line 474); when `analystUpside` is `None` this
  raises `TypeError`, so the embedded aggregator returns `Option StockData`,
  `none` being the uncaught exception.
- The source mutates the `stock_data` dict in place (adding the keys
  `overallScore`, `suggestion`, `scoreBreakdown`, `reasons`) and returns the
  same object.  `StockData` therefore carries those four result fields as
  `Option`s (absent, i.e. `none`, before analysis) and the aggregator returns
  the post-call state of the record.
-/

/-- Python 3 `round(x)`: round half to even (banker's rounding). -/
def rhe (x : ℚ) : ℤ :=
  let f := ⌊x⌋
  let r := x - (f : ℚ)
  if r < 1/2 then f
  else if 1/2 < r then f + 1
  else if f % 2 = 0 then f else f + 1

/-- Two-digit zero padding for the fractional part of `fmt2`. -/
def pad2 (n : ℕ) : String :=
  if n < 10 then "0" ++ toString n else toString n

/-- Model of Python's `f"{x:.2f}"`: fixed-point rendering with two decimal
digits, rounding half to even, with a leading minus sign for negative values
(including values that round to `-0.00`). -/
def fmt2 (x : ℚ) : String :=
  let mag := (rhe (|x| * 100)).toNat
  (if x < 0 then "-" else "") ++ toString (mag / 100) ++ "." ++ pad2 (mag % 100)

/-- One row of the `historicalData` list built by
`fetch_stock_data_from_yfinance` (keys `Date`, `Open`, `High`, `Low`, `Close`,
`Volume`); only `Date` and `Close` are read by the scoring core. -/
structure Bar where
  date : String
  bopen : ℚ
  bhigh : ℚ
  blow : ℚ
  close : ℚ
  volume : ℚ
deriving Repr, DecidableEq

/-- The `score_breakdown` dict of `calculate_overall_score_and_reasons`. -/
structure ScoreBreakdown where
  analystRating : ℕ
  analystUpside : ℕ
  financialAnalysis : ℕ
  technicalAnalysis : ℕ
deriving Repr, DecidableEq

/-- The `stock_data` dict as seen by the scoring core.  The fields
`w52High`/`w52Low` model the keys `'52WeekHigh'`/`'52WeekLow'` (not valid Lean
names).  The last four fields model the keys written by
`calculate_overall_score_and_reasons` into the same dict; they are `none`
before analysis. -/
structure StockData where
  analystRecommendation : Option String := none
  analystUpside : Option ℚ := none
  trailingPE : Option ℚ := none
  forwardPE : Option ℚ := none
  dividendYield : Option ℚ := none
  marketCap : Option ℚ := none
  beta : Option ℚ := none
  currentPrice : Option ℚ := none
  w52High : Option ℚ := none
  w52Low : Option ℚ := none
  historicalData : List Bar := []
  overallScore : Option ℤ := none
  suggestion : Option String := none
  scoreBreakdown : Option ScoreBreakdown := none
  reasons : Option (List String) := none
deriving Repr, DecidableEq

/-- Python `str` applied to an optional string (an f-string renders `None` as
the text `"None"`). -/
def pyStrOpt : Option String → String
  | some s => s
  | none => "None"

/-- `calculate_analyst_rating_score` (src/app.py lines 229-241). -/
def calculate_analyst_rating_score (recommendation : Option String) : ℕ × String :=
  if recommendation = some "Strong Buy" then
    (100, "Analysts strongly recommend buying based on consensus ratings.")
  else if recommendation = some "Buy" then
    (80, "Analysts generally recommend buying.")
  else if recommendation = some "Hold" then
    (50, "Analysts suggest holding, expecting modest performance.")
  else if recommendation = some "Sell" then
    (20, "Analysts recommend selling due to anticipated underperformance.")
  else if recommendation = some "Strong Sell" then
    (0, "Analysts strongly recommend selling due to significant concerns.")
  else
    (50, "Analyst recommendation data unavailable or neutral.")

/-- `calculate_analyst_upside_score` (src/app.py lines 243-260).  `none`
models `upside_percent is None or not isinstance(upside_percent, (int, float))`. -/
def calculate_analyst_upside_score (upside_percent : Option ℚ) : ℕ × String :=
  match upside_percent with
  | none => (50, "Analyst target price or upside data not available.")
  | some u =>
    if u ≥ 1/4 then
      (100, "Significant upside potential of " ++ fmt2 (u * 100) ++ "% according to target prices.")
    else if u ≥ 3/20 then
      (90, "High upside potential of " ++ fmt2 (u * 100) ++ "% based on target prices.")
    else if u ≥ 2/25 then
      (75, "Moderate upside potential of " ++ fmt2 (u * 100) ++ "% based on target prices.")
    else if u ≥ 1/50 then
      (60, "Modest upside potential of " ++ fmt2 (u * 100) ++ "% based on target prices.")
    else if u ≥ -(1/20) then
      (40, "Limited upside or slight downside of " ++ fmt2 (u * 100) ++ "% based on target prices.")
    else
      (10, "Significant downside risk of " ++ fmt2 (u * 100) ++ "% based on target prices.")

/-- Trailing P/E block of `calculate_financial_analysis_score`
(src/app.py lines 277-288): contribution and the single reason it appends. -/
def trailingPESub (pe : Option ℚ) : ℕ × String :=
  match pe with
  | some p =>
    if p > 0 then
      if p < 15 then
        (25, "Healthy Trailing P/E Ratio (" ++ fmt2 p ++ ") indicates good valuation.")
      else if p < 25 then
        (15, "Moderate Trailing P/E Ratio (" ++ fmt2 p ++ ").")
      else
        (5, "High Trailing P/E Ratio (" ++ fmt2 p ++ ") suggests potential overvaluation or high growth expectations.")
    else
      (0, "Trailing P/E Ratio N/A or not positive, limiting valuation insight.")
  | none => (0, "Trailing P/E Ratio N/A or not positive, limiting valuation insight.")

/-- Forward P/E block of `calculate_financial_analysis_score`
(src/app.py lines 291-302). -/
def forwardPESub (fpe : Option ℚ) : ℕ × String :=
  match fpe with
  | some p =>
    if p > 0 then
      if p < 15 then
        (20, "Strong Forward P/E Ratio (" ++ fmt2 p ++ ") suggests future earnings growth.")
      else if p < 25 then
        (10, "Moderate Forward P/E Ratio (" ++ fmt2 p ++ ").")
      else
        (2, "High Forward P/E Ratio (" ++ fmt2 p ++ ").")
    else
      (0, "Forward P/E Ratio N/A or not positive.")
  | none => (0, "Forward P/E Ratio N/A or not positive.")

/-- Dividend yield block of `calculate_financial_analysis_score`
(src/app.py lines 305-316). -/
def dividendYieldSub (dy : Option ℚ) : ℕ × String :=
  match dy with
  | some d =>
    if d > 0 then
      if d ≥ 3/100 then
        (20, "Attractive Dividend Yield of " ++ fmt2 (d * 100) ++ "% provides income.")
      else if d ≥ 1/100 then
        (10, "Modest Dividend Yield of " ++ fmt2 (d * 100) ++ "%.")
      else
        (5, "Low Dividend Yield of " ++ fmt2 (d * 100) ++ "%.")
    else
      (0, "No significant dividend yield, common for growth stocks or those reinvesting earnings.")
  | none => (0, "No significant dividend yield, common for growth stocks or those reinvesting earnings.")

/-- Market capitalization block of `calculate_financial_analysis_score`
(src/app.py lines 319-332). -/
def marketCapSub (mc : Option ℚ) : ℕ × String :=
  match mc with
  | some m =>
    if m > 0 then
      if m ≥ 200000000000 then
        (15, "Large market capitalization suggests stability and market leadership.")
      else if m ≥ 10000000000 then
        (10, "Solid large-cap market capitalization.")
      else if m ≥ 2000000000 then
        (5, "Mid-cap company with potential for growth.")
      else
        (0, "Smaller market capitalization, potentially higher risk/reward.")
    else
      (0, "Market capitalization data unavailable.")
  | none => (0, "Market capitalization data unavailable.")

/-- Beta block of `calculate_financial_analysis_score`
(src/app.py lines 335-346). -/
def betaSub (b : Option ℚ) : ℕ × String :=
  match b with
  | some v =>
    if v < 4/5 then
      (20, "Low Beta (" ++ fmt2 v ++ ") indicates lower volatility relative to the market.")
    else if v < 6/5 then
      (10, "Moderate Beta (" ++ fmt2 v ++ ") suggests volatility in line with the market.")
    else
      (5, "High Beta (" ++ fmt2 v ++ ") implies higher volatility and potentially higher risk.")
  | none => (0, "Beta (market volatility) data unavailable.")

/-- `calculate_financial_analysis_score` (src/app.py lines 262-351).  The
source reads the keys `trailingPE`, `forwardPE`, `dividendYield`, `marketCap`
and `beta` from the dict it is given; each of its five metric blocks adds one
contribution and appends exactly one reason, the score is capped at 100 with
`int(min(100, score))`, and an empty reason list would be replaced by the
"limited data" fallback. -/
def calculate_financial_analysis_score (info : StockData) : ℕ × List String :=
  let s1 := trailingPESub info.trailingPE
  let s2 := forwardPESub info.forwardPE
  let s3 := dividendYieldSub info.dividendYield
  let s4 := marketCapSub info.marketCap
  let s5 := betaSub info.beta
  let score := s1.1 + s2.1 + s3.1 + s4.1 + s5.1
  let reasons := [s1.2, s2.2, s3.2, s4.2, s5.2]
  (min 100 score,
   if reasons = [] then ["Limited financial data available for comprehensive analysis."] else reasons)

/-- Insertion step of the chronological sort (pandas
`set_index('Date').sort_index()`; dates are `%Y-%m-%d` strings, so string
order is date order). -/
def insertByDate (b : Bar) : List Bar → List Bar
  | [] => [b]
  | c :: cs => if c.date < b.date then c :: insertByDate b cs else b :: c :: cs

/-- Chronological sort of the historical bars, modelling
`df.set_index('Date').sort_index()` (src/app.py line 368). -/
def sortByDate : List Bar → List Bar
  | [] => []
  | b :: bs => insertByDate b (sortByDate bs)

/-- Latest value of the `w`-bar trailing simple moving average, modelling
`df['Close'].rolling(window=w).mean().iloc[-1]` guarded by the source's
`isnull().all()` check (src/app.py lines 376-380): `none` iff fewer than `w`
closes exist, otherwise the mean of the last `w` closes. -/
def lastMA (w : ℕ) (closes : List ℚ) : Option ℚ :=
  if closes.length < w then none
  else some ((closes.drop (closes.length - w)).sum / (w : ℚ))

/-- Moving-average crossover block of `calculate_technical_analysis_score`
(src/app.py lines 382-397): contribution and the single reason appended. -/
def maSubscore (cp : ℚ) (closes : List ℚ) : ℕ × String :=
  match lastMA 50 closes, lastMA 200 closes with
  | some m50, some m200 =>
    if cp > m50 ∧ cp > m200 then
      (40, "Price (" ++ fmt2 cp ++ ") is above 50-day (" ++ fmt2 m50 ++ ") and 200-day (" ++ fmt2 m200 ++ ") moving averages (Bullish trend).")
    else if cp > m50 then
      (25, "Price (" ++ fmt2 cp ++ ") is above 50-day moving average (" ++ fmt2 m50 ++ ") (Positive short-term momentum).")
    else if cp > m200 then
      (15, "Price (" ++ fmt2 cp ++ ") is above 200-day moving average (" ++ fmt2 m200 ++ ") (Long-term trend support).")
    else
      (5, "Price (" ++ fmt2 cp ++ ") is below key moving averages, indicating bearish pressure.")
  | _, _ => (0, "Not enough data to calculate 50-day or 200-day moving averages.")

/-- 52-week range block of `calculate_technical_analysis_score`
(src/app.py lines 399-422).  The guard `if fifty_two_week_high and
fifty_two_week_low and current_price:` tests Python truthiness, so a value of
`0` is treated the same as an absent value. -/
def rangeSubscore (cp : ℚ) (h52 l52 : Option ℚ) : ℕ × String :=
  match h52, l52 with
  | some h, some l =>
    if h ≠ 0 ∧ l ≠ 0 ∧ cp ≠ 0 then
      let priceRange := h - l
      if priceRange > 0 then
        let pos := (cp - l) / priceRange
        if pos ≥ 9/10 then
          (30, "Price is near 52-week high (" ++ fmt2 h ++ "), showing strong upward momentum.")
        else if pos ≥ 7/10 then
          (20, "Price is in the upper range of 52-week performance (" ++ fmt2 cp ++ ").")
        else if pos ≤ 1/10 then
          (0, "Price is near 52-week low (" ++ fmt2 l ++ "), indicating weakness.")
        else if pos ≤ 3/10 then
          (5, "Price is in the lower range of 52-week performance (" ++ fmt2 cp ++ ").")
        else
          (10, "Price is in the mid-range of its 52-week performance (" ++ fmt2 cp ++ ").")
      else
        (0, "52-week high and low are too close or invalid for range analysis.")
    else
      (0, "52-Week High/Low data not available for range analysis.")
  | _, _ => (0, "52-Week High/Low data not available for range analysis.")

/-- Recent-performance block of `calculate_technical_analysis_score`
(src/app.py lines 424-448): change over the last 20 closes. -/
def momentumSubscore (closes : List ℚ) : ℕ × String :=
  if closes.length ≥ 20 then
    let startPrice := closes.getD (closes.length - 20) 0
    let endPrice := closes.getLastD 0
    if startPrice ≠ 0 then
      let recentChange := (endPrice - startPrice) / startPrice
      if recentChange ≥ 1/20 then
        (30, "Strong recent performance: Price up " ++ fmt2 (recentChange * 100) ++ "% over the last month.")
      else if recentChange ≥ 1/100 then
        (20, "Positive recent performance: Price up " ++ fmt2 (recentChange * 100) ++ "% over the last month.")
      else if recentChange ≤ -(1/20) then
        (0, "Weak recent performance: Price down " ++ fmt2 (|recentChange| * 100) ++ "% over the last month.")
      else if recentChange < 0 then
        (10, "Slightly negative recent performance: Price down " ++ fmt2 (|recentChange| * 100) ++ "% over the last month.")
      else
        (15, "Stable recent performance over the last month.")
    else
      (0, "Cannot calculate recent performance due to zero starting price.")
  else
    (0, "Insufficient data for recent price performance analysis (less than 1 month).")

/-- `calculate_technical_analysis_score` (src/app.py lines 353-452).  Fewer
than 200 bars short-circuit to the neutral result; otherwise the closes are
taken in chronological order, a missing (or non-numeric) current price falls
back to the last close with an extra reason, and the three sub-blocks each
contribute a score and one reason, capped at 100. -/
def calculate_technical_analysis_score (historical_data : List Bar)
    (current_price : Option ℚ) (h52 l52 : Option ℚ) : ℕ × List String :=
  if historical_data.length < 200 then
    (50, ["Insufficient historical data for comprehensive technical analysis (less than 200 days)."])
  else
    let closes := (sortByDate historical_data).map Bar.close
    let cpv : ℚ :=
      match current_price with
      | some p => p
      | none => closes.getLastD 0
    let cpReasons : List String :=
      match current_price with
      | some _ => []
      | none => ["Using last available closing price for current price in technical analysis."]
    let ma := maSubscore cpv closes
    let rg := rangeSubscore cpv h52 l52
    let mo := momentumSubscore closes
    let score := ma.1 + rg.1 + mo.1
    let reasons := cpReasons ++ [ma.2, rg.2, mo.2]
    (min 100 score,
     if reasons = [] then ["Limited technical data available for comprehensive analysis."] else reasons)

/-- Suggestion thresholds of `calculate_overall_score_and_reasons`
(src/app.py lines 502-516), evaluated top-down on the rounded overall score. -/
def suggestionFor (ov : ℤ) : String :=
  if ov ≥ 85 then "Strong Buy"
  else if ov ≥ 70 then "Buy"
  else if ov ≥ 50 then "Hold"
  else if ov ≥ 30 then "Sell"
  else "Strong Sell"

/-- Headline sentence inserted at the front of the reasons, chosen in the same
branch as the suggestion (src/app.py lines 502-516). -/
def headlineFor (ov : ℤ) : String :=
  if ov ≥ 85 then
    "**Overall Recommendation: Strong Buy** - The stock exhibits excellent performance across all key indicators, suggesting a high-conviction buying opportunity."
  else if ov ≥ 70 then
    "**Overall Recommendation: Buy** - The stock shows strong potential with favorable analyst sentiment, solid financials, and positive technical trends."
  else if ov ≥ 50 then
    "**Overall Recommendation: Hold** - The stock presents a balanced profile. Consider holding if already invested, or wait for clearer signals if not."
  else if ov ≥ 30 then
    "**Overall Recommendation: Sell** - The stock shows some concerning indicators across analyst, financial, or technical fronts. Consider exiting your position."
  else
    "**Overall Recommendation: Strong Sell** - The stock demonstrates significant weaknesses, indicating a high risk and strong recommendation to sell."

/-- `calculate_overall_score_and_reasons` (src/app.py lines 455-520).  The
f-string on line 474 evaluates `analyst_upside * 100` unconditionally; when
`analystUpside` is `None` this raises `TypeError` before any result is
produced, modelled here by returning `none`.  On success the source stores the
results into the `stock_data` dict it was given and returns that same dict;
the returned record is the post-call state of the snapshot. -/
def calculate_overall_score_and_reasons (stock_data : StockData) : Option StockData :=
  let ar := calculate_analyst_rating_score stock_data.analystRecommendation
  let line1 := "Analyst Rating: " ++ pyStrOpt stock_data.analystRecommendation ++ " - " ++ ar.2 ++ " (Score: " ++ toString ar.1 ++ "%)"
  match stock_data.analystUpside with
  | none => none
  | some u =>
    let au := calculate_analyst_upside_score (some u)
    let line2 := "Analyst Upside: " ++ fmt2 (u * 100) ++ "% - " ++ au.2 ++ " (Score: " ++ toString au.1 ++ "%)"
    let fa := calculate_financial_analysis_score stock_data
    let line3 := "Financial Analysis: " ++ String.intercalate "; " fa.2 ++ " (Score: " ++ toString fa.1 ++ "%)"
    let ta := calculate_technical_analysis_score stock_data.historicalData
      stock_data.currentPrice stock_data.w52High stock_data.w52Low
    let line4 := "Technical Analysis: " ++ String.intercalate "; " ta.2 ++ " (Score: " ++ toString ta.1 ++ "%)"
    let overall : ℚ := (ar.1 : ℚ) * (1/4) + (au.1 : ℚ) * (1/4) + (fa.1 : ℚ) * (1/4) + (ta.1 : ℚ) * (1/4)
    let ov : ℤ := rhe overall
    some { stock_data with
            overallScore := some ov
            suggestion := some (suggestionFor ov)
            scoreBreakdown := some ⟨ar.1, au.1, fa.1, ta.1⟩
            reasons := some [headlineFor ov, line1, line2, line3, line4] }

/-! ### Helper lemmas and concrete snapshots -/

/-- A fully absent snapshot: every optional field `None`, no history. -/
def snapNone : StockData := {}

/-- The all-best-case fundamental input of the spec (PE=10, forwardPE=10,
dividendYield=0.04, marketCap=300e9, beta=0.5). -/
def bestCaseInfo : StockData :=
  { trailingPE := some 10, forwardPE := some 10, dividendYield := some (1/25),
    marketCap := some 300000000000, beta := some (1/2) }

/-- A snapshot whose only present field is a zero analyst upside. -/
def sampleSnap : StockData := { analystUpside := some 0 }

/-- A 200-bar constant history. -/
def bars200 : List Bar :=
  List.replicate 200 { date := "2024-01-01", bopen := 1, bhigh := 1, blow := 1, close := 1, volume := 1 }

theorem bars200_length : bars200.length = 200 :=
  List.length_replicate 200 _

theorem insertByDate_length (b : Bar) (l : List Bar) :
    (insertByDate b l).length = l.length + 1 := by
  induction l with
  | nil => rfl
  | cons c cs ih =>
    unfold insertByDate
    split
    · simp [ih]
    · simp

theorem sortByDate_length (l : List Bar) : (sortByDate l).length = l.length := by
  induction l with
  | nil => rfl
  | cons b bs ih => simp [sortByDate, insertByDate_length, ih]

theorem sappend_assoc (a b c : String) : (a ++ b) ++ c = a ++ (b ++ c) := by
  cases a with
  | mk da =>
    cases b with
    | mk db =>
      cases c with
      | mk dc =>
        show String.mk ((da ++ db) ++ dc) = String.mk (da ++ (db ++ dc))
        rw [List.append_assoc]

/-- `includesStr s mid` states that `mid` occurs inside `s`. -/
def includesStr (s mid : String) : Prop := ∃ a b : String, s = a ++ mid ++ b

theorem includesStr_build (A f tail rest : String) (hC : tail = "%" ++ rest) :
    includesStr (A ++ f ++ tail) (f ++ "%") :=
  ⟨A, rest, by rw [hC, ← sappend_assoc (A ++ f) "%" rest, sappend_assoc A f "%"]⟩

/-! ### C1 -/

/-- C1: the body of `analyze` is claimed to be total; in fact the f-string at
src/app.py line 474 multiplies `analyst_upside` by 100 unconditionally, so a
snapshot whose `analystUpside` is absent/None makes the aggregator raise
`TypeError` (modelled by `none`) instead of returning a report. -/
theorem aggregator_fails_on_missing_upside (s : StockData)
    (h : s.analystUpside = none) :
    calculate_overall_score_and_reasons s = none := by
  unfold calculate_overall_score_and_reasons
  rw [h]

/-- C1 witness: the fully absent snapshot has no `analystUpside` and the
aggregator fails on it. -/
theorem aggregator_fails_on_missing_upside_witness :
    snapNone.analystUpside = none ∧
    calculate_overall_score_and_reasons snapNone = none :=
  ⟨rfl, aggregator_fails_on_missing_upside snapNone rfl⟩

/-! ### C2 -/

/-- C2: each of the four scorers returns an integer score between 0 and 100
for every input, including fully absent ones (the scores are natural numbers
by construction, so the lower bound is definitional). -/
theorem scorer_range_invariant (rec : Option String) (up : Option ℚ)
    (info : StockData) (hist : List Bar) (cp h52 l52 : Option ℚ) :
    0 ≤ (calculate_analyst_rating_score rec).1 ∧
    (calculate_analyst_rating_score rec).1 ≤ 100 ∧
    0 ≤ (calculate_analyst_upside_score up).1 ∧
    (calculate_analyst_upside_score up).1 ≤ 100 ∧
    0 ≤ (calculate_financial_analysis_score info).1 ∧
    (calculate_financial_analysis_score info).1 ≤ 100 ∧
    0 ≤ (calculate_technical_analysis_score hist cp h52 l52).1 ∧
    (calculate_technical_analysis_score hist cp h52 l52).1 ≤ 100 := by
  refine ⟨Nat.zero_le _, ?_, Nat.zero_le _, ?_, Nat.zero_le _, ?_, Nat.zero_le _, ?_⟩
  · unfold calculate_analyst_rating_score
    repeat' split
    all_goals norm_num
  · unfold calculate_analyst_upside_score
    repeat' split
    all_goals norm_num
  · unfold calculate_financial_analysis_score
    exact Nat.min_le_left _ _
  · unfold calculate_technical_analysis_score
    split
    · norm_num
    · exact Nat.min_le_left _ _

/-! ### C4 -/

/-- C4 counterexample: on the all-absent input the financial scorer does
return score 0, but with five per-metric "unavailable" reasons, not the single
"limited data" fallback the claim describes (each metric block appends a
reason even when the metric is absent, so the fallback is unreachable). -/
theorem financial_all_absent_counterexample :
    (calculate_financial_analysis_score snapNone).1 = 0 ∧
    (calculate_financial_analysis_score snapNone).2.length = 5 ∧
    (calculate_financial_analysis_score snapNone).2 ≠
      ["Limited financial data available for comprehensive analysis."] := by
  refine ⟨rfl, rfl, ?_⟩
  decide

/-- C4 (amended): the all-absent input yields score 0 together with the five
per-metric unavailable reasons (never the "limited data" fallback), and the
all-best-case input (PE=10, forwardPE=10, dividendYield=0.04, marketCap=300e9,
beta=0.5) yields score 100 = 25+20+20+15+20. -/
theorem financial_extreme_inputs :
    calculate_financial_analysis_score snapNone =
      (0, ["Trailing P/E Ratio N/A or not positive, limiting valuation insight.",
           "Forward P/E Ratio N/A or not positive.",
           "No significant dividend yield, common for growth stocks or those reinvesting earnings.",
           "Market capitalization data unavailable.",
           "Beta (market volatility) data unavailable."]) ∧
    (calculate_financial_analysis_score bestCaseInfo).1 = 100 :=
  ⟨rfl, by with_unfolding_all decide⟩

/-! ### C5 -/

/-- C5: with fewer than 200 bars (including no bars at all) the technical
scorer returns exactly the neutral result, score 50 with the single
insufficient-data reason, regardless of price and 52-week arguments. -/
theorem technical_insufficient_history (hist : List Bar) (cp h52 l52 : Option ℚ)
    (h : hist.length < 200) :
    calculate_technical_analysis_score hist cp h52 l52 =
      (50, ["Insufficient historical data for comprehensive technical analysis (less than 200 days)."]) := by
  unfold calculate_technical_analysis_score
  rw [if_pos h]

/-- C5 witness: the empty history takes the neutral branch. -/
theorem technical_insufficient_history_witness :
    ([] : List Bar).length < 200 ∧
    calculate_technical_analysis_score [] none none none =
      (50, ["Insufficient historical data for comprehensive technical analysis (less than 200 days)."]) :=
  ⟨by decide, technical_insufficient_history [] none none none (by decide)⟩

/-! ### C6 -/

/-- C6: the upside tiers are evaluated top-down with inclusive lower bounds
(absent input scoring the neutral 50), the boundary examples land as claimed
(0.25 → 100, 0.2499 → 90, -0.05 → 40, -0.0501 → 10, None → 50), and every
numeric branch's reason contains the upside formatted as a percentage with
two decimal places (`fmt2 (u * 100)` followed by `%`). -/
theorem upside_tiers_and_reason_format (u : ℚ) :
    (calculate_analyst_upside_score none).1 = 50 ∧
    (calculate_analyst_upside_score (some u)).1 =
      (if u ≥ 1/4 then 100 else if u ≥ 3/20 then 90 else if u ≥ 2/25 then 75
       else if u ≥ 1/50 then 60 else if u ≥ -(1/20) then 40 else 10) ∧
    includesStr (calculate_analyst_upside_score (some u)).2 (fmt2 (u * 100) ++ "%") ∧
    (calculate_analyst_upside_score (some (1/4))).1 = 100 ∧
    (calculate_analyst_upside_score (some (2499/10000))).1 = 90 ∧
    (calculate_analyst_upside_score (some (-(1/20)))).1 = 40 ∧
    (calculate_analyst_upside_score (some (-(501/10000)))).1 = 10 := by
  refine ⟨rfl, ?_, ?_, ?_, ?_, ?_, ?_⟩
  · simp only [calculate_analyst_upside_score]
    repeat' split
    all_goals rfl
  · simp only [calculate_analyst_upside_score]
    repeat' split
    · exact includesStr_build "Significant upside potential of " (fmt2 (u * 100))
        "% according to target prices." " according to target prices." rfl
    · exact includesStr_build "High upside potential of " (fmt2 (u * 100))
        "% based on target prices." " based on target prices." rfl
    · exact includesStr_build "Moderate upside potential of " (fmt2 (u * 100))
        "% based on target prices." " based on target prices." rfl
    · exact includesStr_build "Modest upside potential of " (fmt2 (u * 100))
        "% based on target prices." " based on target prices." rfl
    · exact includesStr_build "Limited upside or slight downside of " (fmt2 (u * 100))
        "% based on target prices." " based on target prices." rfl
    · exact includesStr_build "Significant downside risk of " (fmt2 (u * 100))
        "% based on target prices." " based on target prices." rfl
  · with_unfolding_all decide
  · with_unfolding_all decide
  · with_unfolding_all decide
  · with_unfolding_all decide

/-! ### C3 -/

/-- The analyst-rating sub-score the aggregator computes for a snapshot. -/
def ratingScoreOf (s : StockData) : ℕ :=
  (calculate_analyst_rating_score s.analystRecommendation).1

/-- The analyst-upside sub-score the aggregator computes for a snapshot. -/
def upsideScoreOf (s : StockData) : ℕ :=
  (calculate_analyst_upside_score s.analystUpside).1

/-- The financial sub-score the aggregator computes for a snapshot. -/
def financialScoreOf (s : StockData) : ℕ :=
  (calculate_financial_analysis_score s).1

/-- The technical sub-score the aggregator computes for a snapshot. -/
def technicalScoreOf (s : StockData) : ℕ :=
  (calculate_technical_analysis_score s.historicalData s.currentPrice s.w52High s.w52Low).1

/-- Modelled from the spec: `overallScore = round(0.25 * rating + 0.25 *
upside + 0.25 * financial + 0.25 * technical)` with the spec's coefficient
order (0.25 written as the equal rational 1/4), to be compared with the
aggregator's own computation. -/
def specOverallScore (s : StockData) : ℤ :=
  rhe ((1/4 : ℚ) * ratingScoreOf s + (1/4 : ℚ) * upsideScoreOf s +
       (1/4 : ℚ) * financialScoreOf s + (1/4 : ℚ) * technicalScoreOf s)

/-- C3: whenever the aggregator runs to completion it stores
`round(0.25*rating + 0.25*upside + 0.25*financial + 0.25*technical)` as the
overall score, maps it to the suggestion through the fixed top-down
thresholds (≥85 Strong Buy, ≥70 Buy, ≥50 Hold, ≥30 Sell, else Strong Sell),
four equal sub-scores of 80 give overall 80 with suggestion "Buy", and the
boundary scores 85 and 84 map to "Strong Buy" and "Buy". -/
theorem aggregator_weighted_round_and_thresholds (s : StockData) (u : ℚ)
    (hu : s.analystUpside = some u) :
    Option.map StockData.overallScore (calculate_overall_score_and_reasons s) =
      some (some (specOverallScore s)) ∧
    Option.map StockData.suggestion (calculate_overall_score_and_reasons s) =
      some (some (suggestionFor (specOverallScore s))) ∧
    (∀ n : ℤ, (85 ≤ n → suggestionFor n = "Strong Buy") ∧
      (70 ≤ n ∧ n < 85 → suggestionFor n = "Buy") ∧
      (50 ≤ n ∧ n < 70 → suggestionFor n = "Hold") ∧
      (30 ≤ n ∧ n < 50 → suggestionFor n = "Sell") ∧
      (n < 30 → suggestionFor n = "Strong Sell")) ∧
    (ratingScoreOf s = 80 ∧ upsideScoreOf s = 80 ∧ financialScoreOf s = 80 ∧
        technicalScoreOf s = 80 →
      specOverallScore s = 80 ∧ suggestionFor (specOverallScore s) = "Buy") ∧
    suggestionFor 85 = "Strong Buy" ∧ suggestionFor 84 = "Buy" := by
  have hov : specOverallScore s =
      rhe (((calculate_analyst_rating_score s.analystRecommendation).1 : ℚ) * (1/4) +
        ((calculate_analyst_upside_score (some u)).1 : ℚ) * (1/4) +
        ((calculate_financial_analysis_score s).1 : ℚ) * (1/4) +
        ((calculate_technical_analysis_score s.historicalData s.currentPrice
          s.w52High s.w52Low).1 : ℚ) * (1/4)) := by
    unfold specOverallScore ratingScoreOf upsideScoreOf financialScoreOf technicalScoreOf
    rw [hu]
    congr 1
    ring
  refine ⟨?_, ?_, ?_, ?_, by decide, by decide⟩
  · simp only [calculate_overall_score_and_reasons, hu]
    rw [hov]
    rfl
  · simp only [calculate_overall_score_and_reasons, hu]
    rw [hov]
    rfl
  · intro n
    refine ⟨?_, ?_, ?_, ?_, ?_⟩
    · intro h
      simp only [suggestionFor]
      rw [if_pos (by omega : n ≥ 85)]
    · intro h
      simp only [suggestionFor]
      rw [if_neg (by omega : ¬ n ≥ 85), if_pos (by omega : n ≥ 70)]
    · intro h
      simp only [suggestionFor]
      rw [if_neg (by omega : ¬ n ≥ 85), if_neg (by omega : ¬ n ≥ 70),
        if_pos (by omega : n ≥ 50)]
    · intro h
      simp only [suggestionFor]
      rw [if_neg (by omega : ¬ n ≥ 85), if_neg (by omega : ¬ n ≥ 70),
        if_neg (by omega : ¬ n ≥ 50), if_pos (by omega : n ≥ 30)]
    · intro h
      simp only [suggestionFor]
      rw [if_neg (by omega : ¬ n ≥ 85), if_neg (by omega : ¬ n ≥ 70),
        if_neg (by omega : ¬ n ≥ 50), if_neg (by omega : ¬ n ≥ 30)]
  · rintro ⟨h1, h2, h3, h4⟩
    have h80 : specOverallScore s = 80 := by
      unfold specOverallScore
      rw [h1, h2, h3, h4]
      have harg : ((1/4 : ℚ) * ((80 : ℕ) : ℚ) + (1/4 : ℚ) * ((80 : ℕ) : ℚ) +
          (1/4 : ℚ) * ((80 : ℕ) : ℚ) + (1/4 : ℚ) * ((80 : ℕ) : ℚ)) = 80 := by
        push_cast
        ring
      rw [harg]
      with_unfolding_all decide
    exact ⟨h80, by rw [h80]; decide⟩

/-- C3 witness: the aggregator on a concrete snapshot with a present upside
stores exactly the spec's rounded weighted mean. -/
theorem aggregator_weighted_round_and_thresholds_witness :
    sampleSnap.analystUpside = some 0 ∧
    Option.map StockData.overallScore (calculate_overall_score_and_reasons sampleSnap) =
      some (some (specOverallScore sampleSnap)) :=
  ⟨rfl, (aggregator_weighted_round_and_thresholds sampleSnap 0 rfl).1⟩

/-! ### C7 -/

/-- Reasons list of an analysis result (empty when the aggregator failed). -/
def reportReasons (o : Option StockData) : List String :=
  match o with
  | some r => r.reasons.getD []
  | none => []

/-- `strStartsWith s p` holds when the string `s` starts with `p` (stated on
the underlying character lists; `String.startsWith` itself is defined by
well-founded recursion on byte positions and does not evaluate in proofs). -/
def strStartsWith (s p : String) : Bool := p.data.isPrefixOf s.data

set_option maxRecDepth 100000 in
theorem headlineFor_startsWith (ov : ℤ) :
    strStartsWith (headlineFor ov) "**Overall" = true := by
  unfold headlineFor
  repeat' split
  all_goals decide

set_option maxRecDepth 100000 in
theorem headlineFor_not_word_Overall (ov : ℤ) :
    strStartsWith (headlineFor ov) "Overall" = false := by
  unfold headlineFor
  repeat' split
  all_goals decide

/-- C7 counterexample: on a concrete snapshot the report's 0th reason is the
headline "**Overall Recommendation: ..." which begins with two asterisks, so
it does not start with the word "Overall" as the claim states (the length-5
part of the claim does hold). -/
theorem report_head_counterexample :
    (calculate_overall_score_and_reasons sampleSnap).isSome = true ∧
    (reportReasons (calculate_overall_score_and_reasons sampleSnap)).length = 5 ∧
    strStartsWith ((reportReasons (calculate_overall_score_and_reasons sampleSnap)).headD "")
      "Overall" = false := by
  refine ⟨rfl, rfl, ?_⟩
  show strStartsWith (headlineFor _) "Overall" = false
  exact headlineFor_not_word_Overall _

/-- C7 (amended): every successful analysis produces at least 5 reasons
(1 headline + 4 per-metric lines) and the 0th reason starts with
"**Overall" (the headline "**Overall Recommendation: ...", the word Overall
being preceded by the two asterisks of the markdown emphasis). -/
theorem report_reasons_shape (s : StockData)
    (hs : (calculate_overall_score_and_reasons s).isSome = true) :
    5 ≤ (reportReasons (calculate_overall_score_and_reasons s)).length ∧
    strStartsWith ((reportReasons (calculate_overall_score_and_reasons s)).headD "")
      "**Overall" = true := by
  cases hu : s.analystUpside with
  | none =>
    rw [show calculate_overall_score_and_reasons s = none by
      unfold calculate_overall_score_and_reasons; rw [hu]] at hs
    simp at hs
  | some u =>
    simp only [calculate_overall_score_and_reasons, hu, reportReasons]
    exact ⟨by simp, headlineFor_startsWith _⟩

/-- C7 witness: the amended shape at a concrete snapshot. -/
theorem report_reasons_shape_witness :
    (calculate_overall_score_and_reasons sampleSnap).isSome = true ∧
    5 ≤ (reportReasons (calculate_overall_score_and_reasons sampleSnap)).length ∧
    strStartsWith ((reportReasons (calculate_overall_score_and_reasons sampleSnap)).headD "")
      "**Overall" = true :=
  ⟨rfl, (report_reasons_shape sampleSnap rfl).1, (report_reasons_shape sampleSnap rfl).2⟩

/-! ### C8 -/

/-- C8 counterexample: the aggregator writes its results into the snapshot
record itself (the source stores `overallScore`, `suggestion`,
`scoreBreakdown`, `reasons` into the `stock_data` dict it was handed and
returns that same dict), so after running it the snapshot record differs from
its pre-call state: its `overallScore` field changed from absent to 35. -/
theorem aggregator_writes_into_snapshot_counterexample :
    Option.map StockData.overallScore (calculate_overall_score_and_reasons sampleSnap) =
      some (some 35) ∧
    sampleSnap.overallScore = none := by
  refine ⟨?_, rfl⟩
  set_option maxRecDepth 100000 in with_unfolding_all decide

/-- C8 (amended): the aggregator mutates the snapshot record only by adding
the four result fields; every input field of the snapshot is left unchanged,
and the four scorers themselves mutate nothing. -/
theorem aggregator_preserves_input_fields (s : StockData)
    (hs : (calculate_overall_score_and_reasons s).isSome = true) :
    Option.map StockData.analystRecommendation (calculate_overall_score_and_reasons s) =
      some s.analystRecommendation ∧
    Option.map StockData.analystUpside (calculate_overall_score_and_reasons s) =
      some s.analystUpside ∧
    Option.map StockData.trailingPE (calculate_overall_score_and_reasons s) =
      some s.trailingPE ∧
    Option.map StockData.forwardPE (calculate_overall_score_and_reasons s) =
      some s.forwardPE ∧
    Option.map StockData.dividendYield (calculate_overall_score_and_reasons s) =
      some s.dividendYield ∧
    Option.map StockData.marketCap (calculate_overall_score_and_reasons s) =
      some s.marketCap ∧
    Option.map StockData.beta (calculate_overall_score_and_reasons s) =
      some s.beta ∧
    Option.map StockData.currentPrice (calculate_overall_score_and_reasons s) =
      some s.currentPrice ∧
    Option.map StockData.w52High (calculate_overall_score_and_reasons s) =
      some s.w52High ∧
    Option.map StockData.w52Low (calculate_overall_score_and_reasons s) =
      some s.w52Low ∧
    Option.map StockData.historicalData (calculate_overall_score_and_reasons s) =
      some s.historicalData := by
  cases hu : s.analystUpside with
  | none =>
    rw [show calculate_overall_score_and_reasons s = none by
      unfold calculate_overall_score_and_reasons; rw [hu]] at hs
    simp at hs
  | some u =>
    simp only [calculate_overall_score_and_reasons, hu]
    exact ⟨rfl, rfl, rfl, rfl, rfl, rfl, rfl, rfl, rfl, rfl, rfl⟩

/-- C8 witness: input-field preservation at a concrete snapshot. -/
theorem aggregator_preserves_input_fields_witness :
    (calculate_overall_score_and_reasons sampleSnap).isSome = true ∧
    Option.map StockData.analystUpside (calculate_overall_score_and_reasons sampleSnap) =
      some sampleSnap.analystUpside :=
  ⟨rfl, (aggregator_preserves_input_fields sampleSnap rfl).2.1⟩

/-! ### C9 -/

/-- C9: once the 200-bar guard is passed, the latest MA50 and MA200 over the
chronologically sorted closes are always defined, so the
moving-average block can never take its zero-contribution
"not enough data" fallback branch. -/
theorem ma_defined_when_enough_history (hist : List Bar) (cp : ℚ)
    (h : 200 ≤ hist.length) :
    (lastMA 50 ((sortByDate hist).map Bar.close)).isSome = true ∧
    (lastMA 200 ((sortByDate hist).map Bar.close)).isSome = true ∧
    maSubscore cp ((sortByDate hist).map Bar.close) ≠
      (0, "Not enough data to calculate 50-day or 200-day moving averages.") := by
  have hlen : ((sortByDate hist).map Bar.close).length = hist.length := by
    rw [List.length_map, sortByDate_length]
  have h50 : (lastMA 50 ((sortByDate hist).map Bar.close)).isSome = true := by
    unfold lastMA
    rw [if_neg (by omega)]
    rfl
  have h200 : (lastMA 200 ((sortByDate hist).map Bar.close)).isSome = true := by
    unfold lastMA
    rw [if_neg (by omega)]
    rfl
  refine ⟨h50, h200, ?_⟩
  obtain ⟨m50, hm50⟩ := Option.isSome_iff_exists.mp h50
  obtain ⟨m200, hm200⟩ := Option.isSome_iff_exists.mp h200
  unfold maSubscore
  rw [hm50, hm200]
  intro heq
  repeat' split at heq
  all_goals simp at heq

/-- C9 witness: a concrete 200-bar history has both moving averages defined. -/
theorem ma_defined_when_enough_history_witness :
    200 ≤ bars200.length ∧
    (lastMA 50 ((sortByDate bars200).map Bar.close)).isSome = true :=
  ⟨by rw [bars200_length], (ma_defined_when_enough_history bars200 1 (by rw [bars200_length])).1⟩

/-! ### C10 -/

/-- C10: the 52-week range block's guard tests Python truthiness, so it is
skipped (contribution 0, "not available" reason) whenever the 52-week high,
the 52-week low, or the current price equals 0 — not only when one of them is
absent; in particular a history-rich snapshot whose 52-week low is exactly 0
never receives a range sub-score even though high > low. -/
theorem range_subscore_truthiness (cp hv : ℚ) (h52 l52 : Option ℚ) (hist : List Bar) :
    rangeSubscore cp (some 0) l52 =
      (0, "52-Week High/Low data not available for range analysis.") ∧
    rangeSubscore cp h52 (some 0) =
      (0, "52-Week High/Low data not available for range analysis.") ∧
    rangeSubscore 0 h52 l52 =
      (0, "52-Week High/Low data not available for range analysis.") ∧
    (200 ≤ hist.length → 0 < hv →
      "52-Week High/Low data not available for range analysis." ∈
        (calculate_technical_analysis_score hist (some cp) (some hv) (some 0)).2) := by
  refine ⟨?_, ?_, ?_, ?_⟩
  · cases l52 with
    | none => rfl
    | some l =>
      simp only [rangeSubscore]
      rw [if_neg (by simp)]
  · cases h52 with
    | none => rfl
    | some hval =>
      simp only [rangeSubscore]
      rw [if_neg (by simp)]
  · cases h52 with
    | none => rfl
    | some hval =>
      cases l52 with
      | none => rfl
      | some l =>
        simp only [rangeSubscore]
        rw [if_neg (by simp)]
  · intro hlen hhv
    have hrg : rangeSubscore cp (some hv) (some 0) =
        (0, "52-Week High/Low data not available for range analysis.") := by
      simp only [rangeSubscore]
      rw [if_neg (by simp)]
    unfold calculate_technical_analysis_score
    rw [if_neg (by omega)]
    simp [hrg]

/-- C10 witness: a concrete 200-bar snapshot with 52-week low 0 and high 10
gets the "not available" range reason. -/
theorem range_subscore_truthiness_witness :
    200 ≤ bars200.length ∧ (0 : ℚ) < 10 ∧
    "52-Week High/Low data not available for range analysis." ∈
      (calculate_technical_analysis_score bars200 (some 5) (some 10) (some 0)).2 :=
  ⟨by rw [bars200_length], by norm_num,
   (range_subscore_truthiness 5 10 none none bars200).2.2.2 (by rw [bars200_length]) (by norm_num)⟩
